import Mathlib

/-
Verification of the Streaming Telemetry Controller in `Server/main.py`:
the line-protocol codec (`parse_packet`, `parse_processed_record`), the
device link's dispatch loop and latest-snapshot slot, and the
`StreamController` session manager with its bounded result buffer and
query/aggregate surface.

Modelling conventions:
 - Python's `json.loads` (standard library, external to the repository) is
   modelled by its outcome: a value of `Option Json`, `none` when the line
   is not valid JSON (the `json.loads` call raises and the surrounding
   handler catches it), `some j` when it decodes to the JSON value `j`.
   JSON numbers are modelled as rationals; JSON objects by their final
   key-value list (keys distinct, as `json.loads` keeps the last duplicate).
 - Python `int` is `ℤ`, Python `float` is `ℚ` (exact arithmetic in place of
   IEEE doubles; the claims under verification never depend on rounding of
   the binary representation), `datetime` instants are abstract integers
   threaded in as a `now` parameter.
 - Python dataclasses do not enforce their field annotations at run time;
   we model `ProcessedRecord` at its declared field types and treat a JSON
   value of the wrong shape for a field as a decode failure.  No claim
   under verification exercises ill-typed field values.
 - The serial port is modelled by a write trace: `_send` appends the line
   to `writes` when connected and is a no-op otherwise, mirroring
   `Nano33SenseRev2._send`.
 - Exceptions that the source lets escape are modelled with `Except`;
   exceptions the source catches locally are absorbed into `Option`,
   exactly where the source's `try` blocks sit.
-/

/-- JSON values as returned by a successful `json.loads`. -/
inductive Json where
  | null : Json
  | bool (b : Bool) : Json
  | num (q : ℚ) : Json
  | str (s : String) : Json
  | arr (xs : List Json) : Json
  | obj (kvs : List (String × Json)) : Json

/-- Test whether a JSON value equals a given Python string (the
`obj.get("type") != "PROCESSED"` comparison). -/
def Json.isStr (j : Json) (s : String) : Bool :=
  match j with
  | .str t => t = s
  | _ => false

/-- A JSON value read at a Python `int`-annotated field. -/
def Json.asInt : Json → Option ℤ
  | .num q => if q.den = 1 then some q.num else none
  | _ => none

/-- A JSON value read at a Python `float`-annotated field (JSON ints are
valid floats). -/
def Json.asRat : Json → Option ℚ
  | .num q => some q
  | _ => none

/-- A JSON value read at a Python `bool`-annotated field. -/
def Json.asBool : Json → Option Bool
  | .bool b => some b
  | _ => none

/-- The `SensorPacket` dataclass: a snapshot frame.  The constructor stores
raw `obj.get(...)` results, so every optional field holds the raw JSON
value when the key is present and is absent otherwise.  `timestamp` is the
receipt instant `datetime.now(timezone.utc)`. -/
structure SensorPacket where
  timestamp : ℤ
  hs3003_t_c : Option Json := none
  hs3003_h_rh : Option Json := none
  lps22hb_p_kpa : Option Json := none
  lps22hb_t_c : Option Json := none
  apds_prox : Option Json := none
  apds_color : Option Json := none
  apds_gesture : Option Json := none
  acc_g : Option Json := none
  gyro_dps : Option Json := none
  mag_uT : Option Json := none

/-- The `ProcessedRecord` dataclass: one result frame from the device plus
the wall-clock receipt time `received_at`. -/
structure ProcessedRecord where
  received_at : ℤ
  timestamp : ℤ
  latitude : ℚ
  longitude : ℚ
  elevation : ℚ
  pci : ℤ
  cell_id : ℤ
  rsrp : ℤ
  rsrq : ℤ
  rssi : ℤ
  sinr : ℤ
  is_anomaly : Bool
  record_num : ℤ
  rssi_is_calculated : Bool := false
deriving DecidableEq, Repr

/-- Exceptions that escape to the caller in the modelled code. -/
inductive PyError where
  | attributeError : PyError
deriving DecidableEq, Repr

/-- The packet built by `parse_packet` once `json.loads` produced the
object `kvs`: each optional field is the raw `obj.get(key)` result. -/
def sensorPacketOfObj (now : ℤ) (kvs : List (String × Json)) : SensorPacket :=
  { timestamp := now
    hs3003_t_c := kvs.lookup "hs3003_t_c"
    hs3003_h_rh := kvs.lookup "hs3003_h_rh"
    lps22hb_p_kpa := kvs.lookup "lps22hb_p_kpa"
    lps22hb_t_c := kvs.lookup "lps22hb_t_c"
    apds_prox := kvs.lookup "apds_prox"
    apds_color := kvs.lookup "apds_color"
    apds_gesture := kvs.lookup "apds_gesture"
    acc_g := kvs.lookup "acc_g"
    gyro_dps := kvs.lookup "gyro_dps"
    mag_uT := kvs.lookup "mag_uT" }

/-- The codec's `parse_packet(line)`.  Its `try` block covers only the
`json.loads` call: a line that is not valid JSON returns `None`, but a
line that is valid JSON and not an object reaches `obj.get` on a non-dict
and raises `AttributeError`, which nothing in the function catches. -/
def parse_packet (now : ℤ) (decoded : Option Json) :
    Except PyError (Option SensorPacket) :=
  match decoded with
  | none => .ok none
  | some (.obj kvs) => .ok (some (sensorPacketOfObj now kvs))
  | some _ => .error .attributeError

/-- Field extraction `obj[key]` at an `int`-annotated field: `none` when the
key is missing (`KeyError`) or the value has the wrong shape. -/
def getIntField (kvs : List (String × Json)) (k : String) : Option ℤ :=
  (kvs.lookup k).bind Json.asInt

/-- Field extraction `obj[key]` at a `float`-annotated field. -/
def getRatField (kvs : List (String × Json)) (k : String) : Option ℚ :=
  (kvs.lookup k).bind Json.asRat

/-- Field extraction `obj[key]` at a `bool`-annotated field. -/
def getBoolField (kvs : List (String × Json)) (k : String) : Option Bool :=
  (kvs.lookup k).bind Json.asBool

/-- The `obj.get("rssi_is_calculated", False)` extraction: the default is
used when the key is absent. -/
def getBoolFieldD (kvs : List (String × Json)) (k : String) (d : Bool) :
    Option Bool :=
  match kvs.lookup k with
  | some v => v.asBool
  | none => some d

/-- The codec's `parse_processed_record(line)`.  Its `try` block covers the
whole body, so every failure mode — invalid JSON, a non-object value, a
`type` discriminator other than `"PROCESSED"`, or a missing required key
(`KeyError` on `obj[...]`) — returns `None`.  The nested matches mirror
the sequential field accesses of the constructor call: the first failing
access aborts the record. -/
def parse_processed_record (now : ℤ) (decoded : Option Json) :
    Option ProcessedRecord :=
  match decoded with
  | none => none
  | some (.obj kvs) =>
    match kvs.lookup "type" with
    | some t =>
      if t.isStr "PROCESSED" then
        match getIntField kvs "timestamp" with
        | none => none
        | some timestamp =>
        match getRatField kvs "latitude" with
        | none => none
        | some latitude =>
        match getRatField kvs "longitude" with
        | none => none
        | some longitude =>
        match getRatField kvs "elevation" with
        | none => none
        | some elevation =>
        match getIntField kvs "pci" with
        | none => none
        | some pci =>
        match getIntField kvs "cell_id" with
        | none => none
        | some cell_id =>
        match getIntField kvs "rsrp" with
        | none => none
        | some rsrp =>
        match getIntField kvs "rsrq" with
        | none => none
        | some rsrq =>
        match getIntField kvs "rssi" with
        | none => none
        | some rssi =>
        match getIntField kvs "sinr" with
        | none => none
        | some sinr =>
        match getBoolField kvs "is_anomaly" with
        | none => none
        | some is_anomaly =>
        match getIntField kvs "record_num" with
        | none => none
        | some record_num =>
        match getBoolFieldD kvs "rssi_is_calculated" false with
        | none => none
        | some rssi_is_calculated =>
          some { received_at := now, timestamp, latitude, longitude, elevation,
                 pci, cell_id, rsrp, rsrq, rssi, sinr, is_anomaly, record_num,
                 rssi_is_calculated }
      else none
    | none => none
  | some _ => none

/-- `clear_queue(q)`: `get_nowait` in a loop until `queue.Empty` drains the
queue; on the maxsize-1 latest-packet queue the slot is an `Option`. -/
def clearQueue (_slot : Option SensorPacket) : Option SensorPacket :=
  none

/-- `Nano33SenseRev2._set_latest_package`: `clear_queue` then
`put(pkt, block=False)`.  The put lands on the just-drained queue (the
`some` branch of the drained slot is unreachable). -/
def set_latest_package (slot : Option SensorPacket) (p : SensorPacket) :
    Option SensorPacket :=
  match clearQueue slot with
  | none => some p
  | some _ => some p

/-- `Nano33SenseRev2.get_state`: `self._latest_pkt.get(timeout=2)` removes
and returns the pending packet; `queue.Empty` after the timeout returns
`None`.  Result: (returned value, slot afterwards). -/
def get_state (slot : Option SensorPacket) :
    Option SensorPacket × Option SensorPacket :=
  match slot with
  | some p => (some p, none)
  | none => (none, none)

/-- Effects of one iteration of `Nano33SenseRev2._read_loop` on one decoded
line: which callback fired with what, and the latest-snapshot slot after
the iteration. -/
structure DispatchResult where
  result_cb : Option ProcessedRecord
  packet_cb : Option SensorPacket
  latest_pkt : Option SensorPacket

/-- One `_read_loop` iteration body: try `parse_processed_record` first and
invoke the result callback on success (the snapshot slot is untouched);
otherwise try `parse_packet`, and on success invoke the packet callback
and overwrite the slot; otherwise drop the line.  An exception raised by
`parse_packet` propagates (and kills the read thread). -/
def read_loop_step (now : ℤ) (slot : Option SensorPacket)
    (decoded : Option Json) : Except PyError DispatchResult :=
  match parse_processed_record now decoded with
  | some r => .ok ⟨some r, none, slot⟩
  | none =>
    match parse_packet now decoded with
    | .error e => .error e
    | .ok (some p) => .ok ⟨none, some p, set_latest_package slot p⟩
    | .ok none => .ok ⟨none, none, slot⟩

/-- State of the `Nano33SenseRev2` device link seen by the controller:
whether the serial connection succeeded at construction time, and the
trace of lines written to the serial port. -/
structure BoardState where
  connected : Bool
  writes : List String
deriving DecidableEq, Repr

/-- `Nano33SenseRev2._send(msg)`: a silent no-op when the board is
disconnected, otherwise the message (newline-terminated if not already)
is written to the port.  A write error is caught and logged, so the
caller never sees a failure. -/
def BoardState.send (b : BoardState) (msg : String) : BoardState :=
  if b.connected then
    { b with writes := b.writes ++ [if msg.endsWith "\n" then msg else msg ++ "\n"] }
  else b

/-- Mutable state of `StreamController`: the session flags and counters,
the bounded result buffer `processed_records`, and the owned board. -/
structure SessionState where
  board : BoardState
  streaming : Bool
  processed_records : List ProcessedRecord
  stop_event : Bool
  records_sent : ℕ
  rate_limit : ℤ
deriving DecidableEq, Repr

/-- One bounded append on the result buffer, as performed by
`StreamController._on_processed_record`: push to the tail, then drop the
head when the length exceeds the capacity (the source fixes the capacity
at 10000). -/
def bufferAppend (cap : ℕ) (buf : List ProcessedRecord) (r : ProcessedRecord) :
    List ProcessedRecord :=
  let l := buf ++ [r]
  if l.length > cap then l.drop 1 else l

/-- The result buffer obtained by appending `recs` in order into an
initially empty buffer of capacity `cap`. -/
def bufferOfAppends (cap : ℕ) (recs : List ProcessedRecord) :
    List ProcessedRecord :=
  recs.foldl (bufferAppend cap) []

/-- `StreamController._on_processed_record`: the ingestion callback
appends the record to the buffer under the lock, evicting the oldest
record beyond capacity 10000. -/
def on_processed_record (st : SessionState) (r : ProcessedRecord) :
    SessionState :=
  { st with processed_records := bufferAppend 10000 st.processed_records r }

/-- Result of `StreamController.start_stream`. -/
inductive StartResult where
  | error (msg : String) : StartResult
  | started (rate_limit : ℤ) : StartResult
deriving DecidableEq, Repr

/-- Result of `StreamController.stop_stream`. -/
inductive StopResult where
  | error (msg : String) : StopResult
  | stopped (total_records : ℕ) (records_received : ℕ) : StopResult
deriving DecidableEq, Repr

/-- `StreamController.start_stream(rate_limit)`: an error without any state
change when already streaming; otherwise clamp the rate to [1, 50], reset
the sent counter, clear the stop event, set the streaming flag, send
`STREAM=START`, launch the worker thread, and report the clamped rate. -/
def start_stream (st : SessionState) (rate_limit : ℤ) :
    SessionState × StartResult :=
  if st.streaming then (st, .error "Stream already active")
  else
    let rl := min (max 1 rate_limit) 50
    let st1 := { st with rate_limit := rl, records_sent := 0,
                         stop_event := false, streaming := true }
    let st2 := { st1 with board := st1.board.send "STREAM=START\n" }
    (st2, .started rl)

/-- `StreamController.stop_stream()`: an error without any state change
when no stream is active; otherwise set the stop event, join the worker
(bounded 5 s wait), send `STREAM=STOP`, and report the sent and received
counts. -/
def stop_stream (st : SessionState) : SessionState × StopResult :=
  if st.streaming then
    let st1 := { st with stop_event := true }
    let st2 := { st1 with board := st1.board.send "STREAM=STOP\n" }
    (st2, .stopped st2.records_sent st2.processed_records.length)
  else (st, .error "No active stream")

/-- Python slicing `l[i:]` for an arbitrary signed start index. -/
def pySliceFrom {α : Type} (l : List α) (i : ℤ) : List α :=
  if i < 0 then l.drop (l.length - (-i).toNat)
  else l.drop (min i.toNat l.length)

/-- `StreamController.get_latest_results(count)`:
`self.processed_records[-count:] if self.processed_records else []`. -/
def get_latest_results (st : SessionState) (count : ℤ) :
    List ProcessedRecord :=
  if st.processed_records.isEmpty then []
  else pySliceFrom st.processed_records (-count)

/-- `StreamController.query_by_quality(min_rsrp, min_sinr)`: the list
comprehension keeping records with `rsrp >= min_rsrp and sinr >= min_sinr`
in buffer order. -/
def query_by_quality (st : SessionState) (min_rsrp min_sinr : ℤ) :
    List ProcessedRecord :=
  st.processed_records.filter
    (fun r => decide (min_rsrp ≤ r.rsrp) && decide (min_sinr ≤ r.sinr))

/-- `StreamController.get_anomaly_records()`. -/
def get_anomaly_records (st : SessionState) : List ProcessedRecord :=
  st.processed_records.filter (fun r => r.is_anomaly)

/-- Python's `round` to the nearest integer with ties to even
(banker's rounding), on exact rationals. -/
def pyRoundInt (x : ℚ) : ℤ :=
  let f := ⌊x⌋
  let r := x - (f : ℚ)
  if r < 1 / 2 then f
  else if 1 / 2 < r then f + 1
  else if f % 2 = 0 then f else f + 1

/-- Python's `round(x, ndigits)`. -/
def pyRound (ndigits : ℕ) (x : ℚ) : ℚ :=
  (pyRoundInt (x * (10 : ℚ) ^ ndigits) : ℚ) / (10 : ℚ) ^ ndigits

/-- Aggregate returned by `get_signal_quality_stats` on a non-empty
buffer (the keys of the returned dict). -/
structure SignalStats where
  total_records : ℕ
  avg_rsrp : ℚ
  avg_rsrq : ℚ
  avg_rssi : ℚ
  avg_sinr : ℚ
  min_rsrp : ℤ
  max_rsrp : ℤ
  min_sinr : ℤ
  max_sinr : ℤ
  anomaly_count : ℕ
  anomaly_rate : ℚ
deriving DecidableEq, Repr

/-- Python's `min` over a non-empty sequence, as a left fold from the first
element. -/
def pyMin (x : ℤ) (xs : List ℤ) : ℤ := xs.foldl min x

/-- Python's `max` over a non-empty sequence. -/
def pyMax (x : ℤ) (xs : List ℤ) : ℤ := xs.foldl max x

/-- `StreamController.get_signal_quality_stats()`: the explicit error dict
on an empty buffer (no division is reached); otherwise the count, the four
means rounded to 2 decimal places, min/max of rsrp and sinr, the anomaly
count, and the anomaly rate rounded to 4 decimal places. -/
def get_signal_quality_stats (st : SessionState) :
    Except String SignalStats :=
  match st.processed_records with
  | [] => .error "No processed records available"
  | r :: rs =>
    let l := r :: rs
    let total_count : ℕ := l.length
    let avg_rsrp : ℚ := ((l.map (fun x => x.rsrp)).sum : ℚ) / (total_count : ℚ)
    let avg_rsrq : ℚ := ((l.map (fun x => x.rsrq)).sum : ℚ) / (total_count : ℚ)
    let avg_rssi : ℚ := ((l.map (fun x => x.rssi)).sum : ℚ) / (total_count : ℚ)
    let avg_sinr : ℚ := ((l.map (fun x => x.sinr)).sum : ℚ) / (total_count : ℚ)
    let anomaly_count : ℕ := l.countP (fun x => x.is_anomaly)
    let anomaly_rate : ℚ :=
      if 0 < total_count then (anomaly_count : ℚ) / (total_count : ℚ) else 0
    .ok { total_records := total_count
          avg_rsrp := pyRound 2 avg_rsrp
          avg_rsrq := pyRound 2 avg_rsrq
          avg_rssi := pyRound 2 avg_rssi
          avg_sinr := pyRound 2 avg_sinr
          min_rsrp := pyMin r.rsrp (rs.map (fun x => x.rsrp))
          max_rsrp := pyMax r.rsrp (rs.map (fun x => x.rsrp))
          min_sinr := pyMin r.sinr (rs.map (fun x => x.sinr))
          max_sinr := pyMax r.sinr (rs.map (fun x => x.sinr))
          anomaly_count := anomaly_count
          anomaly_rate := pyRound 4 anomaly_rate }

/-- The ten fields extracted from one replay-source CSV row by
`_stream_worker` (timestamp via `_parse_timestamp`, the rest numeric with
empty values defaulting to 0). -/
structure DataFields where
  timestamp : ℤ
  latitude : ℚ
  longitude : ℚ
  elevation : ℚ
  pci : ℤ
  cell_id : ℤ
  rsrp : ℤ
  rsrq : ℤ
  rssi : ℤ
  sinr : ℤ
deriving DecidableEq, Repr

/-- A replay-source row, modelled by the outcome of the row parse inside
the per-row `try` of `_stream_worker`: `some fields` when every field
extraction succeeds (absent values default to 0 in the source), `none`
when the row raises (missing column or malformed number) and is skipped. -/
abbrev SourceRow : Type := Option DataFields

/-- The `DATA=...` command line built for one parsed row.  Numeric
formatting of the ten comma-separated fields is abstracted by `toString`;
no verified claim inspects the rendered digits. -/
def dataCommand (f : DataFields) : String :=
  "DATA=" ++ toString f.timestamp ++ "," ++ toString f.latitude ++ ","
    ++ toString f.longitude ++ "," ++ toString f.elevation ++ ","
    ++ toString f.pci ++ "," ++ toString f.cell_id ++ ","
    ++ toString f.rsrp ++ "," ++ toString f.rsrq ++ ","
    ++ toString f.rssi ++ "," ++ toString f.sinr ++ "\n"

/-- The row loop of `_stream_worker`: check the stop event before each row
(`break` on stop); a row that fails to parse is skipped; a parsed row is
sent as a `DATA=` command and the sent counter is incremented.  The stop
event is only ever set by `stop_stream`, so within one worker run it is
part of the state being folded. -/
def streamRows (st : SessionState) : List SourceRow → SessionState
  | [] => st
  | row :: rest =>
    if st.stop_event then st
    else
      match row with
      | none => streamRows st rest
      | some f =>
        let st1 := { st with board := st.board.send (dataCommand f),
                             records_sent := st.records_sent + 1 }
        streamRows st1 rest

/-- `StreamController._stream_worker()`: when the source file is missing
the worker logs and returns without sending anything; otherwise it streams
every row.  Either way the `finally` block clears the streaming flag. -/
def stream_worker (st : SessionState) (csv_exists : Bool)
    (rows : List SourceRow) : SessionState :=
  let st1 := if csv_exists then streamRows st rows else st
  { st1 with streaming := false }

/-
Helper lemmas.
-/

theorem dropAppendOfLe {α : Type} (l₁ l₂ : List α) (n : ℕ) (h : n ≤ l₁.length) :
    (l₁ ++ l₂).drop n = l₁.drop n ++ l₂ := by
  induction l₁ generalizing n with
  | nil =>
    simp only [List.length_nil, Nat.le_zero] at h
    simp [h]
  | cons a t ih =>
    cases n with
    | zero => simp
    | succ m =>
      simp only [List.cons_append, List.drop_succ_cons]
      exact ih m (by simpa using h)

theorem bufferOfAppends_append (cap : ℕ) (recs : List ProcessedRecord)
    (r : ProcessedRecord) :
    bufferOfAppends cap (recs ++ [r]) =
      bufferAppend cap (bufferOfAppends cap recs) r := by
  simp [bufferOfAppends, List.foldl_append]

theorem bufferOfAppends_eq_drop (cap : ℕ) (recs : List ProcessedRecord) :
    bufferOfAppends cap recs = recs.drop (recs.length - cap) := by
  induction recs using List.reverseRecOn with
  | nil => simp [bufferOfAppends]
  | append_singleton l r ih =>
    rw [bufferOfAppends_append, ih, bufferAppend]
    by_cases hlen : l.length < cap
    · have h0 : l.length - cap = 0 := by omega
      have h1 : (l ++ [r]).length - cap = 0 := by
        simp only [List.length_append, List.length_singleton]
        omega
      simp only [h0, h1, List.drop_zero]
      have hc2 : ¬ ((l ++ [r]).length > cap) := by
        simp only [List.length_append, List.length_singleton]
        omega
      rw [if_neg hc2]
    · push_neg at hlen
      have hacc : (l.drop (l.length - cap)).length = cap := by
        simp only [List.length_drop]; omega
      have hcond : (l.drop (l.length - cap) ++ [r]).length > cap := by
        simp only [List.length_append, List.length_singleton, hacc]; omega
      simp only [hcond, if_pos]
      rcases Nat.eq_zero_or_pos cap with hc | hc
      · subst hc
        have hd : l.drop (l.length - 0) = [] := by
          simp [List.drop_eq_nil_iff]
        simp [hd, List.length_append]
      · have h1 : (1 : ℕ) ≤ (l.drop (l.length - cap)).length := by omega
        rw [dropAppendOfLe _ [r] 1 h1, List.drop_drop]
        have h2 : (l ++ [r]).length - cap ≤ l.length := by
          simp only [List.length_append, List.length_singleton]; omega
        rw [dropAppendOfLe l [r] _ h2]
        have h3 : l.length - cap + 1 = (l ++ [r]).length - cap := by
          simp only [List.length_append, List.length_singleton]; omega
        rw [h3]

/-- A concrete `ProcessedRecord` carrying a device sequence number, used to
instantiate scenarios. -/
def sampleRecord (n : ℤ) : ProcessedRecord :=
  { received_at := 0, timestamp := 0, latitude := 0, longitude := 0,
    elevation := 0, pci := 0, cell_id := 0, rsrp := -90, rsrq := -10,
    rssi := -60, sinr := 10, is_anomaly := false, record_num := n }

/-- C1: for every sequence of appended records, after each append the
result buffer's length is at most 10000 and its contents are the last
min(k, 10000) appended records in arrival order (`drop (k - 10000)` of the
appended sequence); and with capacity 3, appending the records numbered
1, 2, 3, 4 in order leaves the buffer holding 2, 3, 4 in that order. -/
theorem buffer_bounded_holds_last_appended :
    (∀ recs : List ProcessedRecord,
        (bufferOfAppends 10000 recs).length ≤ 10000 ∧
        bufferOfAppends 10000 recs = recs.drop (recs.length - 10000)) ∧
    bufferOfAppends 3
        [sampleRecord 1, sampleRecord 2, sampleRecord 3, sampleRecord 4] =
      [sampleRecord 2, sampleRecord 3, sampleRecord 4] := by
  constructor
  · intro recs
    constructor
    · rw [bufferOfAppends_eq_drop, List.length_drop]
      omega
    · exact bufferOfAppends_eq_drop 10000 recs
  · decide

/-- The controller state right after `StreamController.__init__` on a given
board: not streaming, empty buffer, cleared stop event, zero sent counter,
default rate limit 20. -/
def init_controller (b : BoardState) : SessionState :=
  { board := b, streaming := false, processed_records := [],
    stop_event := false, records_sent := 0, rate_limit := 20 }

/-- An idle controller on a disconnected board. -/
def idleSession : SessionState :=
  init_controller { connected := false, writes := [] }

/-- An idle controller whose buffer holds exactly one record. -/
def oneRecordSession : SessionState :=
  { idleSession with processed_records := [sampleRecord 1] }

/-- C8 counterexample: on a buffer holding one record, `Tail(0)` returns
the entire buffer, not the empty list the claim requires for n = 0
(Python `l[-0:]` is `l[0:]`, the whole list). -/
theorem tail_zero_returns_whole_buffer :
    get_latest_results oneRecordSession 0 = [sampleRecord 1] ∧
    [sampleRecord 1] ≠ ([] : List ProcessedRecord) := by
  exact ⟨by decide, by simp⟩

/-- C8 amended: for n at least 1, `Tail(n)` returns the last min(n, length)
records of the buffer in arrival order; for n = 0 it returns the whole
buffer (so the empty list only when the buffer is empty). -/
theorem tail_amended (st : SessionState) (n : ℤ) (h : 1 ≤ n) :
    get_latest_results st n =
      st.processed_records.drop (st.processed_records.length - n.toNat) ∧
    (get_latest_results st n).length =
      min n.toNat st.processed_records.length ∧
    get_latest_results st 0 = st.processed_records := by
  obtain ⟨b, s, pr, se, rs, rl⟩ := st
  cases pr with
  | nil => simp [get_latest_results]
  | cons a t =>
    have hneg : -n < 0 := by omega
    have h1 : get_latest_results ⟨b, s, a :: t, se, rs, rl⟩ n =
        (a :: t).drop ((a :: t).length - n.toNat) := by
      simp only [get_latest_results, pySliceFrom, List.isEmpty_cons,
        Bool.false_eq_true, if_false, if_pos hneg, neg_neg]
    refine ⟨h1, ?_, ?_⟩
    · rw [h1, List.length_drop]
      dsimp only
      omega
    · simp [get_latest_results, pySliceFrom]

/-- Witness for the amended C8 theorem at a concrete buffer and n = 2. -/
theorem tail_amended_witness :
    get_latest_results oneRecordSession 2 =
      oneRecordSession.processed_records.drop
        (oneRecordSession.processed_records.length - (2 : ℤ).toNat) ∧
    (get_latest_results oneRecordSession 2).length =
      min (2 : ℤ).toNat oneRecordSession.processed_records.length ∧
    get_latest_results oneRecordSession 0 =
      oneRecordSession.processed_records :=
  tail_amended oneRecordSession 2 (by decide)

theorem parse_processed_record_missing_sinr (now : ℤ)
    (kvs : List (String × Json)) (hsinr : kvs.lookup "sinr" = none) :
    parse_processed_record now (some (.obj kvs)) = none := by
  have hs2 : getIntField kvs "sinr" = none := by
    rw [getIntField, hsinr]
    rfl
  unfold parse_processed_record
  dsimp only
  rw [hs2]
  repeat' split
  all_goals first
    | rfl
    | simp_all

/-- A concrete received line with `type` equal to `PROCESSED` that is
missing the required `sinr` key (and most others). -/
def procKvs : List (String × Json) :=
  [("type", Json.str "PROCESSED"), ("timestamp", Json.num 100)]

/-- C2 counterexample: the line with `type:"PROCESSED"` and `timestamp:100`
but no `sinr` is refused by the Result path, yet `parse_packet` accepts the
object as a Snapshot Frame with every optional field absent, so the
dispatcher invokes the snapshot callback and overwrites the latest-snapshot
slot — the line is not dropped and the slot does not stay unchanged. -/
theorem processed_line_missing_sinr_not_dropped :
    parse_processed_record 0 (some (Json.obj procKvs)) = none ∧
    parse_packet 0 (some (Json.obj procKvs)) =
      .ok (some (sensorPacketOfObj 0 procKvs)) ∧
    sensorPacketOfObj 0 procKvs = { timestamp := 0 } ∧
    read_loop_step 0 none (some (Json.obj procKvs)) =
      .ok ⟨none, some (sensorPacketOfObj 0 procKvs),
           some (sensorPacketOfObj 0 procKvs)⟩ ∧
    some (sensorPacketOfObj 0 procKvs) ≠ (none : Option SensorPacket) := by
  refine ⟨by decide, rfl, rfl, ?_, by simp⟩
  unfold read_loop_step
  rw [show parse_processed_record 0 (some (Json.obj procKvs)) = none from by decide]
  rfl

/-- C2 amended: a line decoding to a JSON object that is missing the
required `sinr` key yields no match on the Result path (no result
callback, nothing enters the result buffer), but `parse_packet` accepts
any JSON object best-effort, so the line is taken as a Snapshot Frame
(optional fields populated only from snapshot keys), the snapshot callback
fires, and the latest-snapshot slot is overwritten with that packet. -/
theorem processed_line_missing_sinr_taken_as_snapshot (now : ℤ)
    (slot : Option SensorPacket) (kvs : List (String × Json))
    (hsinr : kvs.lookup "sinr" = none) :
    parse_processed_record now (some (.obj kvs)) = none ∧
    parse_packet now (some (.obj kvs)) =
      .ok (some (sensorPacketOfObj now kvs)) ∧
    read_loop_step now slot (some (.obj kvs)) =
      .ok ⟨none, some (sensorPacketOfObj now kvs),
           some (sensorPacketOfObj now kvs)⟩ := by
  have h1 := parse_processed_record_missing_sinr now kvs hsinr
  refine ⟨h1, rfl, ?_⟩
  unfold read_loop_step
  rw [h1]
  rfl

/-- Witness for the amended C2 theorem at the concrete missing-`sinr`
line. -/
theorem processed_line_missing_sinr_taken_as_snapshot_witness :
    parse_processed_record 5 (some (Json.obj procKvs)) = none ∧
    parse_packet 5 (some (Json.obj procKvs)) =
      .ok (some (sensorPacketOfObj 5 procKvs)) ∧
    read_loop_step 5 none (some (Json.obj procKvs)) =
      .ok ⟨none, some (sensorPacketOfObj 5 procKvs),
           some (sensorPacketOfObj 5 procKvs)⟩ :=
  processed_line_missing_sinr_taken_as_snapshot 5 none procKvs rfl

/-- C3 (code bug): `parse_processed_record` absorbs every failure into
`None`, but `parse_packet` only guards the `json.loads` call, so a line
that is valid JSON and not an object — such as `5` or `[1,2]` — reaches
`obj.get` on a non-dict and raises `AttributeError`; the dispatcher does
not catch it either, so the error propagates out of the read-loop
iteration instead of the line being dropped. -/
theorem parse_packet_raises_on_nonobject_json :
    parse_processed_record 0 (some (Json.num 5)) = none ∧
    parse_packet 0 (some (Json.num 5)) = .error .attributeError ∧
    read_loop_step 0 none (some (Json.num 5)) = .error .attributeError ∧
    parse_packet 0 (some (Json.arr [Json.num 1, Json.num 2])) =
      .error .attributeError ∧
    parse_packet 0 none = .ok none ∧
    parse_processed_record 0 none = none :=
  ⟨rfl, rfl, rfl, rfl, rfl, rfl⟩

/-- A controller whose session is currently streaming. -/
def streamingSession : SessionState :=
  { idleSession with streaming := true }

/-- C4: `Start` while already streaming returns the "already active" error
and returns before touching any session state; `Stop` while idle returns
the "no active stream" error and likewise changes nothing (flags,
counters, rate limit, stop event, buffer and board all unchanged). -/
theorem invalid_transitions_error_and_preserve_state
    (stA stI : SessionState) (rate : ℤ)
    (hA : stA.streaming = true) (hI : stI.streaming = false) :
    start_stream stA rate = (stA, .error "Stream already active") ∧
    stop_stream stI = (stI, .error "No active stream") := by
  constructor
  · simp [start_stream, hA]
  · simp [stop_stream, hI]

/-- Witness for C4 at concrete streaming and idle sessions. -/
theorem invalid_transitions_witness :
    start_stream streamingSession 20 =
      (streamingSession, .error "Stream already active") ∧
    stop_stream idleSession = (idleSession, .error "No active stream") :=
  invalid_transitions_error_and_preserve_state streamingSession idleSession
    20 rfl rfl

/-- C7: a successful `Start(rate)` clamps the rate limit into [1, 50],
resets the sent counter to zero and clears the stop event; in particular
`Start(0)` behaves exactly as `Start(1)` and `Start(999)` exactly as
`Start(50)`. -/
theorem start_clamps_rate_and_resets (st : SessionState) (rate : ℤ)
    (h : st.streaming = false) :
    (start_stream st rate).1.rate_limit = min (max 1 rate) 50 ∧
    1 ≤ (start_stream st rate).1.rate_limit ∧
    (start_stream st rate).1.rate_limit ≤ 50 ∧
    (start_stream st rate).1.records_sent = 0 ∧
    (start_stream st rate).1.stop_event = false ∧
    (start_stream st rate).2 = .started (min (max 1 rate) 50) ∧
    start_stream st 0 = start_stream st 1 ∧
    start_stream st 999 = start_stream st 50 := by
  have hs : ∀ r : ℤ, start_stream st r =
      ({ st with board := st.board.send "STREAM=START\n",
                 streaming := true, records_sent := 0,
                 stop_event := false, rate_limit := min (max 1 r) 50 },
       .started (min (max 1 r) 50)) := by
    intro r
    simp [start_stream, h]
  refine ⟨?_, ?_, ?_, ?_, ?_, ?_, ?_, ?_⟩
  · rw [hs]
  · rw [hs]
    exact le_min (le_max_left 1 rate) (by norm_num)
  · rw [hs]
    exact min_le_right _ 50
  · rw [hs]
  · rw [hs]
  · rw [hs]
  · rw [hs 0, hs 1]
    norm_num
  · rw [hs 999, hs 50]
    norm_num

/-- Witness for C7 at an idle session and rate 999. -/
theorem start_clamps_rate_and_resets_witness :
    (start_stream idleSession 999).1.rate_limit = min (max 1 999) 50 ∧
    1 ≤ (start_stream idleSession 999).1.rate_limit ∧
    (start_stream idleSession 999).1.rate_limit ≤ 50 ∧
    (start_stream idleSession 999).1.records_sent = 0 ∧
    (start_stream idleSession 999).1.stop_event = false ∧
    (start_stream idleSession 999).2 = .started (min (max 1 999) 50) ∧
    start_stream idleSession 0 = start_stream idleSession 1 ∧
    start_stream idleSession 999 = start_stream idleSession 50 :=
  start_clamps_rate_and_resets idleSession 999 rfl

/-- C6: `FilterByQuality` returns exactly the records of the buffer meeting
both thresholds, in arrival order (a sublist of the buffer, with membership
and multiplicity characterised by the predicate), and an empty result is
the ordinary empty list, obtained precisely when no record qualifies (the
return type carries no error case at all). -/
theorem query_by_quality_exact_filter (st : SessionState) (a b : ℤ) :
    List.Sublist (query_by_quality st a b) st.processed_records ∧
    (∀ r, r ∈ query_by_quality st a b ↔
        r ∈ st.processed_records ∧ a ≤ r.rsrp ∧ b ≤ r.sinr) ∧
    (query_by_quality st a b).length =
      st.processed_records.countP
        (fun r => decide (a ≤ r.rsrp) && decide (b ≤ r.sinr)) ∧
    (query_by_quality st a b = [] ↔
      ∀ r ∈ st.processed_records, ¬(a ≤ r.rsrp ∧ b ≤ r.sinr)) := by
  refine ⟨List.filter_sublist _, ?_, ?_, ?_⟩
  · intro r
    simp [query_by_quality, List.mem_filter, and_assoc]
  · rw [query_by_quality, List.countP_eq_length_filter]
  · simp [query_by_quality, List.filter_eq_nil_iff]

/-- A concrete sensor packet. -/
def samplePacket : SensorPacket := { timestamp := 7 }

/-- A second concrete sensor packet. -/
def samplePacket2 : SensorPacket := { timestamp := 8 }

/-- C10: `get_state` is a consuming read: reading a pending snapshot
empties the slot, so a second read with no new snapshot in between finds
the slot empty and yields the "unavailable" `None`; and storing into the
slot first clears any unread value, leaving exactly the newest snapshot
pending. -/
theorem snapshot_slot_consuming_read (slot : Option SensorPacket)
    (p q : SensorPacket) (h : slot = some p) :
    get_state slot = (some p, none) ∧
    get_state (get_state slot).2 = (none, none) ∧
    set_latest_package slot q = some q ∧
    set_latest_package (set_latest_package slot p) q = some q := by
  subst h
  exact ⟨rfl, rfl, rfl, rfl⟩

/-- Witness for C10 at concrete packets. -/
theorem snapshot_slot_consuming_read_witness :
    get_state (some samplePacket) = (some samplePacket, none) ∧
    get_state (get_state (some samplePacket)).2 = (none, none) ∧
    set_latest_package (some samplePacket) samplePacket2 =
      some samplePacket2 ∧
    set_latest_package (set_latest_package (some samplePacket) samplePacket)
        samplePacket2 = some samplePacket2 :=
  snapshot_slot_consuming_read (some samplePacket) samplePacket samplePacket2
    rfl

theorem foldl_min_le_init (xs : List ℤ) (a : ℤ) : xs.foldl min a ≤ a := by
  induction xs generalizing a with
  | nil => exact le_refl a
  | cons x t ih => exact le_trans (ih (min a x)) (min_le_left a x)

theorem foldl_min_le_mem (xs : List ℤ) (a x : ℤ) (hx : x ∈ xs) :
    xs.foldl min a ≤ x := by
  induction xs generalizing a with
  | nil => cases hx
  | cons y t ih =>
    rcases List.mem_cons.mp hx with rfl | hxt
    · exact le_trans (foldl_min_le_init t (min a x)) (min_le_right a x)
    · exact ih (min a y) hxt

theorem foldl_min_mem (xs : List ℤ) (a : ℤ) :
    xs.foldl min a = a ∨ xs.foldl min a ∈ xs := by
  induction xs generalizing a with
  | nil => exact Or.inl rfl
  | cons y t ih =>
    rcases ih (min a y) with h | h
    · rcases min_choice a y with hm | hm
      · left
        rw [List.foldl_cons, h, hm]
      · right
        rw [List.foldl_cons, h, hm]
        exact List.mem_cons_self y t
    · right
      exact List.mem_cons_of_mem y h

theorem foldl_max_init_le (xs : List ℤ) (a : ℤ) : a ≤ xs.foldl max a := by
  induction xs generalizing a with
  | nil => exact le_refl a
  | cons x t ih => exact le_trans (le_max_left a x) (ih (max a x))

theorem foldl_max_mem_le (xs : List ℤ) (a x : ℤ) (hx : x ∈ xs) :
    x ≤ xs.foldl max a := by
  induction xs generalizing a with
  | nil => cases hx
  | cons y t ih =>
    rcases List.mem_cons.mp hx with rfl | hxt
    · exact le_trans (le_max_right a x) (foldl_max_init_le t (max a x))
    · exact ih (max a y) hxt

theorem foldl_max_mem (xs : List ℤ) (a : ℤ) :
    xs.foldl max a = a ∨ xs.foldl max a ∈ xs := by
  induction xs generalizing a with
  | nil => exact Or.inl rfl
  | cons y t ih =>
    rcases ih (max a y) with h | h
    · rcases max_choice a y with hm | hm
      · left
        rw [List.foldl_cons, h, hm]
      · right
        rw [List.foldl_cons, h, hm]
        exact List.mem_cons_self y t
    · right
      exact List.mem_cons_of_mem y h

/-- Mean of a list of integers, written from the specification: the sum
divided by the count. -/
def listMean (xs : List ℤ) : ℚ := (xs.sum : ℚ) / (xs.length : ℚ)

theorem get_signal_quality_stats_cons (st : SessionState)
    (r : ProcessedRecord) (rs : List ProcessedRecord)
    (hl : st.processed_records = r :: rs) :
    get_signal_quality_stats st = .ok
      { total_records := (r :: rs).length
        avg_rsrp := pyRound 2
          ((((r :: rs).map (fun x => x.rsrp)).sum : ℚ) / ((r :: rs).length : ℚ))
        avg_rsrq := pyRound 2
          ((((r :: rs).map (fun x => x.rsrq)).sum : ℚ) / ((r :: rs).length : ℚ))
        avg_rssi := pyRound 2
          ((((r :: rs).map (fun x => x.rssi)).sum : ℚ) / ((r :: rs).length : ℚ))
        avg_sinr := pyRound 2
          ((((r :: rs).map (fun x => x.sinr)).sum : ℚ) / ((r :: rs).length : ℚ))
        min_rsrp := pyMin r.rsrp (rs.map (fun x => x.rsrp))
        max_rsrp := pyMax r.rsrp (rs.map (fun x => x.rsrp))
        min_sinr := pyMin r.sinr (rs.map (fun x => x.sinr))
        max_sinr := pyMax r.sinr (rs.map (fun x => x.sinr))
        anomaly_count := (r :: rs).countP (fun x => x.is_anomaly)
        anomaly_rate := pyRound 4
          (if 0 < (r :: rs).length then
            (((r :: rs).countP (fun x => x.is_anomaly) : ℚ)) /
              ((r :: rs).length : ℚ)
          else 0) } := by
  unfold get_signal_quality_stats
  rw [hl]

/-- C5: `Stats()` on an empty buffer returns the explicit error result (the
empty match arm returns before any division is formed); on a non-empty
buffer it returns the total count, the mean of each of rsrp/rsrq/rssi/sinr
rounded to 2 decimal places, the min and max of rsrp and of sinr, the
anomaly count, and the anomaly rate equal to anomaly count over total
count rounded to 4 decimal places. -/
theorem stats_empty_error_nonempty_fields (st : SessionState) :
    (st.processed_records = [] →
      get_signal_quality_stats st = .error "No processed records available") ∧
    (st.processed_records ≠ [] →
      ∃ s, get_signal_quality_stats st = .ok s ∧
        s.total_records = st.processed_records.length ∧
        s.avg_rsrp =
          pyRound 2 (listMean (st.processed_records.map (fun r => r.rsrp))) ∧
        s.avg_rsrq =
          pyRound 2 (listMean (st.processed_records.map (fun r => r.rsrq))) ∧
        s.avg_rssi =
          pyRound 2 (listMean (st.processed_records.map (fun r => r.rssi))) ∧
        s.avg_sinr =
          pyRound 2 (listMean (st.processed_records.map (fun r => r.sinr))) ∧
        s.min_rsrp ∈ st.processed_records.map (fun r => r.rsrp) ∧
        (∀ x ∈ st.processed_records.map (fun r => r.rsrp), s.min_rsrp ≤ x) ∧
        s.max_rsrp ∈ st.processed_records.map (fun r => r.rsrp) ∧
        (∀ x ∈ st.processed_records.map (fun r => r.rsrp), x ≤ s.max_rsrp) ∧
        s.min_sinr ∈ st.processed_records.map (fun r => r.sinr) ∧
        (∀ x ∈ st.processed_records.map (fun r => r.sinr), s.min_sinr ≤ x) ∧
        s.max_sinr ∈ st.processed_records.map (fun r => r.sinr) ∧
        (∀ x ∈ st.processed_records.map (fun r => r.sinr), x ≤ s.max_sinr) ∧
        s.anomaly_count =
          (st.processed_records.filter (fun r => r.is_anomaly)).length ∧
        s.anomaly_rate =
          pyRound 4 ((s.anomaly_count : ℚ) / (s.total_records : ℚ))) := by
  constructor
  · intro h
    simp [get_signal_quality_stats, h]
  · intro h
    rcases hl : st.processed_records with _ | ⟨r, rs⟩
    · exact absurd hl h
    · have hmem : ∀ g : ProcessedRecord → ℤ,
          pyMin (g r) (rs.map g) ∈ (r :: rs).map g := by
        intro g
        rw [List.map_cons]
        rcases foldl_min_mem (rs.map g) (g r) with h1 | h1
        · rw [pyMin, h1]
          exact List.mem_cons_self _ _
        · rw [pyMin]
          exact List.mem_cons_of_mem _ h1
      have hminle : ∀ (g : ProcessedRecord → ℤ), ∀ x ∈ (r :: rs).map g,
          pyMin (g r) (rs.map g) ≤ x := by
        intro g x hx
        rw [List.map_cons] at hx
        rcases List.mem_cons.mp hx with rfl | hx
        · exact foldl_min_le_init _ _
        · exact foldl_min_le_mem _ _ _ hx
      have hmaxmem : ∀ g : ProcessedRecord → ℤ,
          pyMax (g r) (rs.map g) ∈ (r :: rs).map g := by
        intro g
        rw [List.map_cons]
        rcases foldl_max_mem (rs.map g) (g r) with h1 | h1
        · rw [pyMax, h1]
          exact List.mem_cons_self _ _
        · rw [pyMax]
          exact List.mem_cons_of_mem _ h1
      have hmaxle : ∀ (g : ProcessedRecord → ℤ), ∀ x ∈ (r :: rs).map g,
          x ≤ pyMax (g r) (rs.map g) := by
        intro g x hx
        rw [List.map_cons] at hx
        rcases List.mem_cons.mp hx with rfl | hx
        · exact foldl_max_init_le _ _
        · exact foldl_max_mem_le _ _ _ hx
      refine ⟨_, get_signal_quality_stats_cons st r rs hl,
        rfl, ?_, ?_, ?_, ?_,
        hmem _, hminle _, hmaxmem _, hmaxle _,
        hmem _, hminle _, hmaxmem _, hmaxle _,
        List.countP_eq_length_filter _ _, ?_⟩
      · simp [listMean, List.length_map, Function.comp_def]
      · simp [listMean, List.length_map, Function.comp_def]
      · simp [listMean, List.length_map, Function.comp_def]
      · simp [listMean, List.length_map, Function.comp_def]
      · rw [if_pos (by simp)]

/-- Witness for C5: the one-record buffer produces an `ok` aggregate with
total count 1, and the empty buffer produces the error result. -/
theorem stats_empty_error_nonempty_fields_witness :
    get_signal_quality_stats idleSession =
      .error "No processed records available" ∧
    ∃ s, get_signal_quality_stats oneRecordSession = Except.ok s ∧
      s.total_records = 1 := by
  constructor
  · exact (stats_empty_error_nonempty_fields idleSession).1 rfl
  · obtain ⟨s, hs, ht, -⟩ :=
      (stats_empty_error_nonempty_fields oneRecordSession).2 (by decide)
    exact ⟨s, hs, by rw [ht]; decide⟩

theorem streamRows_disconnected (rows : List SourceRow) (st : SessionState)
    (hc : st.board.connected = false) (hs : st.stop_event = false) :
    streamRows st rows =
      { st with records_sent :=
          st.records_sent + (rows.filterMap id).length } := by
  induction rows generalizing st with
  | nil => simp [streamRows]
  | cons row rest ih =>
    rw [streamRows.eq_def]
    dsimp only
    rw [if_neg (by simp [hs])]
    cases row with
    | none =>
      rw [ih st hc hs]
      simp
    | some f =>
      obtain ⟨b, strm, pr, se, snt, rl⟩ := st
      have hsend : b.send (dataCommand f) = b := by
        simp only [BoardState.send] at hc ⊢
        simp [hc]
      dsimp only
      rw [hsend, ih _ (by simpa using hc) (by simpa using hs)]
      simp [List.filterMap_cons]
      omega

/-- C9: with the board in disconnected mode, `Start` neither checks nor
needs the connection: it still reports "started", the worker still walks
the whole source, the sent counter still counts every parseable row, and
yet nothing at all is written to the device (every `_send`, including
`STREAM=START`, is a silent no-op). -/
theorem disconnected_start_streams_and_counts (st : SessionState)
    (rows : List SourceRow) (rate : ℤ)
    (hs : st.streaming = false) (hc : st.board.connected = false) :
    ∃ st1, start_stream st rate = (st1, .started (min (max 1 rate) 50)) ∧
      (stream_worker st1 true rows).board.writes = st.board.writes ∧
      (stream_worker st1 true rows).records_sent =
        (rows.filterMap id).length ∧
      (stream_worker st1 true rows).streaming = false := by
  obtain ⟨⟨conn, wr⟩, strm, pr, se, snt, rl⟩ := st
  dsimp at hs hc
  subst hs
  subst hc
  have h1 : start_stream ⟨⟨false, wr⟩, false, pr, se, snt, rl⟩ rate =
      (⟨⟨false, wr⟩, true, pr, false, 0, min (max 1 rate) 50⟩,
       .started (min (max 1 rate) 50)) := by
    simp [start_stream, BoardState.send]
  have h2 : streamRows ⟨⟨false, wr⟩, true, pr, false, 0,
      min (max 1 rate) 50⟩ rows =
      ⟨⟨false, wr⟩, true, pr, false, 0 + (rows.filterMap id).length,
       min (max 1 rate) 50⟩ :=
    streamRows_disconnected rows _ rfl rfl
  refine ⟨_, h1, ?_, ?_, ?_⟩ <;>
    simp [stream_worker, h2]

/-- A concrete parsed source row with all ten fields zero. -/
def sampleFields : DataFields :=
  { timestamp := 0, latitude := 0, longitude := 0, elevation := 0,
    pci := 0, cell_id := 0, rsrp := 0, rsrq := 0, rssi := 0, sinr := 0 }

/-- A concrete replay source: one parseable row followed by one malformed
row. -/
def demoRows : List SourceRow := [some sampleFields, none]

/-- Witness for C9 at the disconnected idle session and a concrete source
with one parseable row. -/
theorem disconnected_start_streams_and_counts_witness :
    ∃ st1, start_stream idleSession 20 =
        (st1, .started (min (max 1 20) 50)) ∧
      (stream_worker st1 true demoRows).board.writes =
        idleSession.board.writes ∧
      (stream_worker st1 true demoRows).records_sent =
        (demoRows.filterMap id).length ∧
      (stream_worker st1 true demoRows).streaming = false :=
  disconnected_start_streams_and_counts idleSession demoRows 20 rfl rfl
